import Mathlib

/-!
Verification of the offline-resilient data-access and synchronization layer
of the gainzapp mobile fitness application, shallowly embedded in Lean 4.

Each definition mirrors one JavaScript function of the repository:
* `RateLimiter.isAllowed`, `getRemainingTime`, `getStatus`
  (src/src/utils/validation.js),
* `saveToCache` / `getFromCache` and the exercise query functions
  (src/services/exerciseApi.js),
* `retryWithRenderOptimization` and `ServiceStatusDetector`
  (src/utils/apiOptimization.js),
* `UserPreferencesService.saveUserPreferences` / `updateUserPreferences` /
  `syncPendingData` (src/src/services/userPreferencesService.js),
* `RoutineMigration.migrateUserRoutines` (src/src/utils/routineMigration.js).

Time is epoch milliseconds as `Nat`; JavaScript `Date.now()` is passed in
explicitly as a `now` argument.  The mutable per-key entry of the limiter's
`Map`, the persisted cache entry and the persisted preference documents are
passed as explicit state (`Option` when the entry may be absent).  Awaited
asynchronous calls are evaluated sequentially, as on the single-threaded
event loop.  `setTimeout` delays between retry attempts do not influence
results or invocation counts and are elided.
-/

namespace Gainz

/-- Tests that `haystack` starts with `needle` (on character lists, structurally
recursive so concrete instances reduce in the kernel). -/
def charsStartWith : List Char → List Char → Bool
  | _, [] => true
  | [], _ :: _ => false
  | a :: as, n :: ns => a == n && charsStartWith as ns

/-- Tests that `needle` occurs somewhere inside `haystack` (character lists). -/
def charsHaveSub : List Char → List Char → Bool
  | [], ns => ns.isEmpty
  | h :: t, ns => charsStartWith (h :: t) ns || charsHaveSub t ns

/-- JavaScript `haystack.includes(needle)` on strings. -/
def strIncludes (haystack needle : String) : Bool :=
  charsHaveSub haystack.data needle.data

/-! ## Rate limiter (src/src/utils/validation.js, class RateLimiter) -/

/-- One per-key record of the limiter's `Map`:
`{ count, resetTime, firstAttempt }`. -/
structure RateLimitRecord where
  count : Nat
  resetTime : Nat
  firstAttempt : Nat
deriving DecidableEq, Repr

namespace RateLimiter

/-- Embeds `RateLimiter.isAllowed(key, maxAttempts = 8, timeWindow = 180000)`.
The state is the entry stored under `key` (`none` when absent); the result
pairs the returned boolean with the entry after the call.  Branches in
source order: full reset when the window elapsed, first attempt, the
30-second progressive cooldown once `count >= 3`, the hard block at
`maxAttempts`, and otherwise increment-and-allow. -/
def isAllowed (now maxAttempts timeWindow : Nat) (st : Option RateLimitRecord) :
    Bool × Option RateLimitRecord :=
  let keyAttempts := st.getD ⟨0, now + timeWindow, now⟩
  if keyAttempts.resetTime < now then
    (true, some ⟨1, now + timeWindow, now⟩)
  else if keyAttempts.count = 0 then
    (true, some ⟨1, keyAttempts.resetTime, now⟩)
  else if 3 ≤ keyAttempts.count ∧ keyAttempts.count < maxAttempts ∧
      now - keyAttempts.firstAttempt < 30000 then
    (false, some keyAttempts)
  else if maxAttempts ≤ keyAttempts.count then
    (false, some keyAttempts)
  else
    (true, some { keyAttempts with count := keyAttempts.count + 1 })

/-- Embeds `RateLimiter.getRemainingTime(key)`: short-cooldown remainder while the
count is in 3..7 and the 30 s deadline is ahead, otherwise the remainder of
the full window (`Math.max 0` is `Nat` truncated subtraction). -/
def getRemainingTime (now : Nat) (st : Option RateLimitRecord) : Nat :=
  match st with
  | none => 0
  | some keyAttempts =>
    if 3 ≤ keyAttempts.count ∧ keyAttempts.count < 8 ∧
        now < keyAttempts.firstAttempt + 30000 then
      keyAttempts.firstAttempt + 30000 - now
    else
      keyAttempts.resetTime - now

/-- Result shape of `RateLimiter.getStatus(key)`; the `maxAttempts` field is
absent (`none`) in the no-record branch of the source. -/
structure RateLimitStatus where
  attempts : Nat
  isBlocked : Bool
  remainingTime : Nat
  maxAttempts : Option Nat
deriving DecidableEq, Repr

/-- Embeds `RateLimiter.getStatus(key)`.  The `isBlocked` field is computed as
`!this.isAllowed(key) && keyAttempts.count > 0`, so `isAllowed` runs with
its default limits (8, 180000) and its state update persists; `attempts`
was read from the record before that call, while the `count > 0` test reads
the (aliased) record after it. -/
def getStatus (now : Nat) (st : Option RateLimitRecord) :
    RateLimitStatus × Option RateLimitRecord :=
  match st with
  | none => (⟨0, false, 0, none⟩, none)
  | some keyAttempts =>
    let remainingTime := getRemainingTime now (some keyAttempts)
    let attempts := keyAttempts.count
    let (allowed, st') := isAllowed now 8 180000 (some keyAttempts)
    let countAfter := (st'.getD keyAttempts).count
    (⟨attempts, !allowed && decide (0 < countAfter), remainingTime, some 8⟩, st')

/-- Booleans returned by `n` successive `isAllowed` calls sharing one
`Date.now()` value ("rapid succession"). -/
def rapidCalls (now maxAttempts timeWindow : Nat) :
    Nat → Option RateLimitRecord → List Bool
  | 0, _ => []
  | n + 1, st =>
    let r := isAllowed now maxAttempts timeWindow st
    r.1 :: rapidCalls now maxAttempts timeWindow n r.2

/-- Stored entry after `n` successive `isAllowed` calls sharing one
`Date.now()` value. -/
def rapidState (now maxAttempts timeWindow : Nat) :
    Nat → Option RateLimitRecord → Option RateLimitRecord
  | 0, st => st
  | n + 1, st =>
    rapidState now maxAttempts timeWindow n (isAllowed now maxAttempts timeWindow st).2

end RateLimiter

/-! ## Persistent key-value cache (src/services/exerciseApi.js) -/

/-- The JSON record `{ data, timestamp }` written by `saveToCache`;
`α` is the type of the serialized payload. -/
structure CacheEntry (α : Type) where
  data : α
  timestamp : Nat
deriving DecidableEq, Repr

/-- Embeds `saveToCache(key, data)`: stores `{ data, timestamp: Date.now() }`
under the key. -/
def saveToCache (now : Nat) (data : α) : CacheEntry α :=
  ⟨data, now⟩

/-- Embeds `getFromCache(key, maxAge = 3600000)`.  The state is the entry stored
under the key; the result pairs the returned value (`null` ↦ `none`) with
the entry after the call: a stale entry (`age > maxAge`) is removed and
`null` is returned. -/
def getFromCache (now maxAge : Nat) (st : Option (CacheEntry α)) :
    Option α × Option (CacheEntry α) :=
  match st with
  | none => (none, none)
  | some cached =>
    let age := now - cached.timestamp
    if maxAge < age then (none, none)
    else (some cached.data, some cached)

/-! ## Exercise data-access layer (src/services/exerciseApi.js) -/

/-- Flat exercise record of the remote catalog API. -/
structure Exercise where
  id : Nat
  name : String
  muscle : String
  equipment : String
  difficulty : String
deriving DecidableEq, Repr

/-- Environment of one exercise query: device connectivity (the
`checkConnectivity()` outcome), the current time, the cache entry stored
under `CACHE_KEYS.ALL_EXERCISES`, the entry stored under the query's own
key (muscle / equipment / search variants), and the outcomes the network
would produce (`fetch` for a mapped list request, `fetchById` for the
direct `/exercises/{id}` lookup). -/
structure ExerciseEnv where
  online : Bool
  now : Nat
  cachedAll : Option (CacheEntry (List Exercise))
  cachedByKey : Option (CacheEntry (List Exercise))
  fetch : Except String (List Exercise)
  fetchById : Except String Exercise

/-- Observable outcome of one exercise query: the value returned or the
message thrown, whether the awaited code path issued a network request,
and whether a background cache refresh was kicked off (not awaited). -/
structure QueryOutcome (α : Type) where
  result : Except String α
  networkCalled : Bool
  backgroundRefreshStarted : Bool
deriving Repr

/-- Embeds `updateCacheInBackground(cacheKey, fetchFunction)`: the cache entry
after the detached refresh settles — overwritten via `saveToCache` when
the fetch succeeds, untouched (failure swallowed, only logged) when it
fails. -/
def updateCacheInBackground (now : Nat) (fetchResult : Except String α)
    (st : Option (CacheEntry α)) : Option (CacheEntry α) :=
  match fetchResult with
  | Except.ok freshData => some (saveToCache now freshData)
  | Except.error _ => st

/-- Embeds `getAllExercises()`: reads the `ALL_EXERCISES` cache entry, checks
connectivity; offline it serves the cache or throws the no-local-data
message; online with a cache hit it returns the cache at once and starts a
background refresh; online on a miss it fetches (wrapping a failure's
message). -/
def getAllExercises (env : ExerciseEnv) : QueryOutcome (List Exercise) :=
  let cached := (getFromCache env.now 3600000 env.cachedAll).1
  if env.online = false then
    match cached with
    | some data => ⟨Except.ok data, false, false⟩
    | none =>
      ⟨Except.error "Sin conexión y no hay ejercicios guardados localmente", false, false⟩
  else
    match cached with
    | some data => ⟨Except.ok data, false, true⟩
    | none =>
      match env.fetch with
      | Except.ok exercises => ⟨Except.ok exercises, true, false⟩
      | Except.error e =>
        ⟨Except.error ("Error al cargar ejercicios: " ++ e), true, false⟩

/-- Embeds `getExercisesByMuscle(muscle)`: serves the per-muscle cache entry when
present (no connectivity check, no background refresh), otherwise fetches
with the muscle parameter and wraps a failure's message. -/
def getExercisesByMuscle (env : ExerciseEnv) : QueryOutcome (List Exercise) :=
  match (getFromCache env.now 3600000 env.cachedByKey).1 with
  | some cached => ⟨Except.ok cached, false, false⟩
  | none =>
    match env.fetch with
    | Except.ok exercises => ⟨Except.ok exercises, true, false⟩
    | Except.error e =>
      ⟨Except.error ("Error al cargar ejercicios por músculo: " ++ e), true, false⟩

/-- Embeds `getExercisesByEquipment(equipment)`: same shape as the per-muscle
query, with the equipment cache key and error message. -/
def getExercisesByEquipment (env : ExerciseEnv) : QueryOutcome (List Exercise) :=
  match (getFromCache env.now 3600000 env.cachedByKey).1 with
  | some cached => ⟨Except.ok cached, false, false⟩
  | none =>
    match env.fetch with
    | Except.ok exercises => ⟨Except.ok exercises, true, false⟩
    | Except.error e =>
      ⟨Except.error ("Error al cargar ejercicios por equipamiento: " ++ e), true, false⟩

/-- The local filter of `searchExercises(query)` over the full catalog. -/
def searchFilter (searchTerm : String) (exercises : List Exercise) : List Exercise :=
  exercises.filter fun exercise =>
    strIncludes exercise.name.toLower searchTerm ||
    strIncludes exercise.muscle.toLower searchTerm ||
    strIncludes exercise.equipment.toLower searchTerm ||
    strIncludes exercise.difficulty.toLower searchTerm

/-- Embeds `searchExercises(query)`: serves the per-query cache entry (30-minute
TTL) when present, otherwise filters `getAllExercises()` locally; an error
of the underlying catalog load is wrapped. -/
def searchExercises (searchTerm : String) (env : ExerciseEnv) :
    QueryOutcome (List Exercise) :=
  match (getFromCache env.now 1800000 env.cachedByKey).1 with
  | some cached => ⟨Except.ok cached, false, false⟩
  | none =>
    let allResult := getAllExercises env
    match allResult.result with
    | Except.ok allExercises =>
      ⟨Except.ok (searchFilter searchTerm allExercises), allResult.networkCalled,
        allResult.backgroundRefreshStarted⟩
    | Except.error e =>
      ⟨Except.error ("Error al buscar ejercicios: " ++ e), allResult.networkCalled,
        allResult.backgroundRefreshStarted⟩

/-- Embeds `getExerciseById(id)`: looks the id up in the cached full catalog
first; on a miss it calls `/exercises/{id}` directly, and if that call
fails it falls back to searching `getAllExercises()`, rethrowing the
wrapped original error when the fallback also misses. -/
def getExerciseById (id : Nat) (env : ExerciseEnv) : QueryOutcome Exercise :=
  let lookupFromNetwork : QueryOutcome Exercise :=
    match env.fetchById with
    | Except.ok exercise => ⟨Except.ok exercise, true, false⟩
    | Except.error e =>
      let wrapped := "No se pudo obtener el ejercicio con ID " ++ toString id ++ ": " ++ e
      let fallback := getAllExercises env
      match fallback.result with
      | Except.ok allExercises =>
        match allExercises.find? (fun ex => ex.id = id) with
        | some exercise => ⟨Except.ok exercise, true, fallback.backgroundRefreshStarted⟩
        | none => ⟨Except.error wrapped, true, fallback.backgroundRefreshStarted⟩
      | Except.error _ => ⟨Except.error wrapped, true, fallback.backgroundRefreshStarted⟩
  match (getFromCache env.now 3600000 env.cachedAll).1 with
  | some cachedData =>
    match cachedData.find? (fun ex => ex.id = id) with
    | some exercise => ⟨Except.ok exercise, false, false⟩
    | none => lookupFromNetwork
  | none => lookupFromNetwork

/-! ## Render free-tier optimizations (src/utils/apiOptimization.js) -/

/-- The integral fields of `RENDER_CONFIG` (`BACKOFF_MULTIPLIER = 1.5`
feeds only the inter-attempt sleep, which is elided with real time). -/
structure RenderConfig where
  WAKE_UP_TIMEOUT : Nat
  NORMAL_TIMEOUT : Nat
  RETRY_TIMEOUT : Nat
  MAX_RETRIES : Nat
  KEEP_ALIVE_INTERVAL : Nat
  SLEEP_INDICATORS : List String

/-- The `RENDER_CONFIG` constant. -/
def RENDER_CONFIG : RenderConfig where
  WAKE_UP_TIMEOUT := 90000
  NORMAL_TIMEOUT := 15000
  RETRY_TIMEOUT := 8000
  MAX_RETRIES := 3
  KEEP_ALIVE_INTERVAL := 10 * 60 * 1000
  SLEEP_INDICATORS :=
    ["ECONNABORTED", "TIMEOUT", "Network Error",
     "Request failed with status code 503",
     "Request failed with status code 504"]

/-- State of the `ServiceStatusDetector` singleton. -/
structure ServiceStatusDetector where
  isServiceAsleep : Bool
  lastSuccessfulRequest : Nat
  consecutiveFailures : Nat
deriving DecidableEq, Repr

namespace ServiceStatusDetector

/-- Embeds `markSuccess()`: wakes the detector and restamps the last success. -/
def markSuccess (now : Nat) (_s : ServiceStatusDetector) : ServiceStatusDetector :=
  ⟨false, now, 0⟩

/-- The `SLEEP_INDICATORS.some(indicator => errorMessage.includes(indicator))`
test of `markFailure`. -/
def isSleepSignature (errorMessage : String) : Bool :=
  RENDER_CONFIG.SLEEP_INDICATORS.any fun indicator => strIncludes errorMessage indicator

/-- Embeds `markFailure(error)`: bumps the consecutive-failure counter and flags
the service asleep on a sleep-signature message or on the second
consecutive failure. -/
def markFailure (errorMessage : String) (s : ServiceStatusDetector) :
    ServiceStatusDetector :=
  let consecutiveFailures := s.consecutiveFailures + 1
  if isSleepSignature errorMessage ∨ 2 ≤ consecutiveFailures then
    { s with isServiceAsleep := true, consecutiveFailures := consecutiveFailures }
  else
    { s with consecutiveFailures := consecutiveFailures }

/-- Embeds `shouldUseWakeUpTimeout()`: asleep flag, or more than 15 minutes since
the last successful request. -/
def shouldUseWakeUpTimeout (now : Nat) (s : ServiceStatusDetector) : Bool :=
  s.isServiceAsleep || decide (15 * 60 * 1000 < now - s.lastSuccessfulRequest)

end ServiceStatusDetector

/-- The wrapped error thrown once all attempts failed:
`` `${context} failed after ${RENDER_CONFIG.MAX_RETRIES} attempts. Last error: ${lastError.message}` ``. -/
def retryFailMessage (context lastErrorMessage : String) : String :=
  context ++ " failed after " ++ toString RENDER_CONFIG.MAX_RETRIES
    ++ " attempts. Last error: " ++ lastErrorMessage

/-- Attempt loop of `retryWithRenderOptimization`.  `attempt` is the
1-based attempt index; `remaining` counts the attempts still permitted
after this one (`MAX_RETRIES - attempt`).  The operation is modelled as a
map from attempt index to its outcome; the returned `Nat` counts how often
it was invoked.  On the final attempt's failure the loop breaks and the
wrapped error carries the last message. -/
def retryGo (fn : Nat → Except String α) (context : String) :
    Nat → Nat → Except String α × Nat
  | attempt, 0 =>
    match fn attempt with
    | Except.ok result => (Except.ok result, 1)
    | Except.error e => (Except.error (retryFailMessage context e), 1)
  | attempt, r + 1 =>
    match fn attempt with
    | Except.ok result => (Except.ok result, 1)
    | Except.error _ =>
      let rest := retryGo fn context (attempt + 1) r
      (rest.1, rest.2 + 1)

/-- Embeds `retryWithRenderOptimization(fn, context)`: attempts 1 through
`RENDER_CONFIG.MAX_RETRIES`, returning the first success or throwing the
wrapped error after the last failure. -/
def retryWithRenderOptimization (fn : Nat → Except String α) (context : String) :
    Except String α × Nat :=
  retryGo fn context 1 (RENDER_CONFIG.MAX_RETRIES - 1)

/-! ## Preference sync engine (src/src/services/userPreferencesService.js) -/

/-- A user-preference document.  `payload` stands for the quiz fields
spread from the caller's object (`gymType`, `equipment`, `goals`, …);
the fields the service itself stamps are explicit. -/
structure PreferencesData where
  payload : Nat
  userId : String
  completedAt : Option Nat
  version : String
  lastUpdated : Option Nat
deriving DecidableEq, Repr

/-- Embeds `UserPreferencesService.saveUserPreferences(userId, preferences)`:
spreads the given document and overwrites `userId`, `completedAt` (with
the current time), `version` and `lastUpdated`.  The resulting document is
what both the local store and — when reachable — the remote store receive,
and what the call returns. -/
def saveUserPreferences (now : Nat) (userId : String) (preferences : PreferencesData) :
    PreferencesData :=
  { preferences with
    userId := userId
    completedAt := some now
    version := "1.0"
    lastUpdated := some now }

/-- The partial update object accepted by `updateUserPreferences`: fields
present override the current document (object spread). -/
structure PreferencesUpdate where
  payload : Option Nat
  completedAt : Option (Option Nat)
deriving DecidableEq, Repr

/-- Embeds the spread `{...currentPreferences, ...updates}`. -/
def applyUpdates (current : PreferencesData) (updates : PreferencesUpdate) :
    PreferencesData :=
  { current with
    payload := updates.payload.getD current.payload
    completedAt := updates.completedAt.getD current.completedAt }

/-- Embeds `UserPreferencesService.updateUserPreferences(userId, updates)` given
the current document: merges the updates, stamps `lastUpdated`, and saves
through `saveUserPreferences`. -/
def updateUserPreferences (now : Nat) (userId : String)
    (currentPreferences : PreferencesData) (updates : PreferencesUpdate) :
    PreferencesData :=
  saveUserPreferences now userId
    { applyUpdates currentPreferences updates with lastUpdated := some now }

/-- The two persisted copies of a user's preference document: the local
store entry and the remote document (each absent when never written). -/
structure SyncState where
  localDoc : Option PreferencesData
  remoteDoc : Option PreferencesData
deriving DecidableEq, Repr

/-- Embeds `new Date(doc.lastUpdated || 0).getTime()` of `syncPendingData`:
a missing document or missing field counts as timestamp 0. -/
def syncTimestamp (doc : Option PreferencesData) : Nat :=
  match doc with
  | none => 0
  | some d => d.lastUpdated.getD 0

/-- Embeds `UserPreferencesService.syncPendingData(userId)`: skipped offline
(returns `false`); a missing local document returns `true` with no write;
otherwise the side with the strictly greater `lastUpdated` overwrites the
other in full, and equal timestamps write nothing. -/
def syncPendingData (online : Bool) (st : SyncState) : Bool × SyncState :=
  if online = false then (false, st)
  else
    match st.localDoc with
    | none => (true, st)
    | some localPreferences =>
      let localTimestamp := syncTimestamp (some localPreferences)
      let firestoreTimestamp := syncTimestamp st.remoteDoc
      if firestoreTimestamp < localTimestamp then
        (true, ⟨some localPreferences, some localPreferences⟩)
      else if localTimestamp < firestoreTimestamp ∧ st.remoteDoc.isSome then
        (true, ⟨st.remoteDoc, st.remoteDoc⟩)
      else
        (true, st)

/-! ## Routine migration (src/src/utils/routineMigration.js) -/

/-- A routine record; fields irrelevant to migration are summarized in
`payload`. -/
structure Routine where
  id : String
  name : String
  isGenerated : Bool
  originalId : Option String
  migratedAt : Option Nat
  payload : Nat
deriving DecidableEq, Repr

/-- Persisted state `migrateUserRoutines` touches for one user: the
per-user `routine_migration_completed_v1_<userId>` flag, the legacy
`user_routines_default_user` list and the user's own
`user_routines_<userId>` list (`none` when the key is absent). -/
structure MigrationState where
  migrationCompleted : Bool
  oldRoutines : Option (List Routine)
  userRoutines : Option (List Routine)
deriving DecidableEq, Repr

/-- Embeds `RoutineMigration.migrateUserRoutines(userId)`.  `mkId` stands for the
`Date.now() + random` fresh-id generator, applied to the legacy id.
Guarded by the completion flag; legacy routines whose `name` already
occurs in the user's list are skipped, the rest are re-keyed (fresh `id`,
`originalId`, `migratedAt`) and appended; the flag is set in every
completed run. -/
def migrateUserRoutines (mkId : String → String) (now : Nat)
    (st : MigrationState) : MigrationState :=
  if st.migrationCompleted then st
  else
    match st.oldRoutines with
    | none => { st with migrationCompleted := true }
    | some oldRoutines =>
      let existingRoutines := st.userRoutines.getD []
      let existingNames := existingRoutines.map Routine.name
      let routinesToMigrate :=
        (oldRoutines.filter fun routine => !(existingNames.contains routine.name)).map
          fun routine =>
            { routine with
              id := mkId routine.id
              migratedAt := some now
              originalId := some routine.id }
      if 0 < routinesToMigrate.length then
        { migrationCompleted := true
          oldRoutines := st.oldRoutines
          userRoutines := some (existingRoutines ++ routinesToMigrate) }
      else
        { st with migrationCompleted := true }

/-! ## Theorems -/

/-- One blocked rapid call from the stuck record: the soft cooldown fires
(count 3 is in `[3, 8)` and no time has passed since the first attempt)
and the record is left unchanged. -/
lemma isAllowed_stuck :
    RateLimiter.isAllowed 0 8 180000 (some ⟨3, 180000, 0⟩)
      = (false, some ⟨3, 180000, 0⟩) := by
  decide

/-- Rapid calls starting from the stuck record are all blocked and leave
the record unchanged. -/
lemma rapid_stuck (m : Nat) :
    RateLimiter.rapidCalls 0 8 180000 m (some ⟨3, 180000, 0⟩)
        = List.replicate m false ∧
      RateLimiter.rapidState 0 8 180000 m (some ⟨3, 180000, 0⟩)
        = some ⟨3, 180000, 0⟩ := by
  induction m with
  | zero => exact ⟨rfl, rfl⟩
  | succ k ih =>
    refine ⟨?_, ?_⟩
    · simp only [RateLimiter.rapidCalls, isAllowed_stuck, List.replicate, ih.1]
    · simp only [RateLimiter.rapidState, isAllowed_stuck, ih.2]

/-- C1, counterexample.  For a fresh key, eight `isAllowed(key, 8, 180000)`
calls in rapid succession (all at time 0) yield allowed, allowed, allowed,
then five blocks: the third call is allowed, contradicting the claimed
"calls 1 and 2 allowed, calls 3 through 7 blocked".  Moreover the stored
count stays at 3 (blocked calls do not increment it), so the hard
`maxAttempts` window is never reached, and a call 30 seconds after the
first attempt is allowed again rather than blocked until 180 s. -/
theorem C1_rapid_trace_counterexample :
    RateLimiter.rapidCalls 0 8 180000 8 none
        = [true, true, true, false, false, false, false, false] ∧
      RateLimiter.rapidState 0 8 180000 8 none = some ⟨3, 180000, 0⟩ ∧
      (RateLimiter.isAllowed 30000 8 180000
        (RateLimiter.rapidState 0 8 180000 8 none)).1 = true := by
  decide

/-- C1, amended.  For a fresh rate-limiter key, calling
`isAllowed(key, 8, 180000)` in rapid succession (no time elapsing) yields:
calls 1 through 3 allowed — the soft-cooldown test reads the attempt count
stored before the increment — and every call from the 4th on blocked by
the 30-second soft cooldown measured from the first attempt in the window.
Blocked calls leave the count at 3, so the hard window at `maxAttempts`
never engages for rapid calls, and a call made 30 seconds after the first
attempt is allowed again. -/
theorem C1_soft_cooldown_trace (n : Nat) :
    RateLimiter.rapidCalls 0 8 180000 (n + 4) none
        = [true, true, true] ++ List.replicate (n + 1) false ∧
      RateLimiter.rapidState 0 8 180000 (n + 4) none = some ⟨3, 180000, 0⟩ ∧
      (RateLimiter.isAllowed 30000 8 180000
        (RateLimiter.rapidState 0 8 180000 (n + 4) none)).1 = true := by
  have s1 : RateLimiter.isAllowed 0 8 180000 none
      = (true, some ⟨1, 180000, 0⟩) := by decide
  have s2 : RateLimiter.isAllowed 0 8 180000 (some ⟨1, 180000, 0⟩)
      = (true, some ⟨2, 180000, 0⟩) := by decide
  have s3 : RateLimiter.isAllowed 0 8 180000 (some ⟨2, 180000, 0⟩)
      = (true, some ⟨3, 180000, 0⟩) := by decide
  have h := rapid_stuck (n + 1)
  have hc : RateLimiter.rapidCalls 0 8 180000 (n + 4) none
      = true :: true :: true ::
        RateLimiter.rapidCalls 0 8 180000 (n + 1) (some ⟨3, 180000, 0⟩) := by
    show RateLimiter.rapidCalls 0 8 180000 (n + 1 + 3) none = _
    simp only [RateLimiter.rapidCalls, s1, s2, s3]
  have hs : RateLimiter.rapidState 0 8 180000 (n + 4) none
      = RateLimiter.rapidState 0 8 180000 (n + 1) (some ⟨3, 180000, 0⟩) := by
    show RateLimiter.rapidState 0 8 180000 (n + 1 + 3) none = _
    simp only [RateLimiter.rapidState, s1, s2, s3]
  refine ⟨?_, ?_, ?_⟩
  · rw [hc, h.1]; rfl
  · rw [hs, h.2]
  · rw [hs, h.2]; decide

/-- C2.  For every cache entry, `getFromCache(key, ttl)` returns a
non-null value iff `now - storedAt ≤ ttl`, and evicts the underlying
record exactly when the age exceeds the ttl; immediately after
`saveToCache(key, value)`, `getFromCache` with any ttl returns the stored
value unchanged. -/
theorem C2_cache_ttl_roundtrip {α : Type} (cached : CacheEntry α)
    (now ttl : Nat) (v : α) :
    ((getFromCache now ttl (some cached)).1.isSome
        ↔ now - cached.timestamp ≤ ttl) ∧
      ((getFromCache now ttl (some cached)).2 = none
        ↔ ttl < now - cached.timestamp) ∧
      getFromCache now ttl (some (saveToCache now v))
        = (some v, some (saveToCache now v)) := by
  by_cases h : ttl < now - cached.timestamp
  · simp [getFromCache, saveToCache, h, Nat.not_le.mpr h]
  · simp [getFromCache, saveToCache, h, Nat.not_lt.mp h]

/-- C9.  `getStatus(key)` is not read-only: for an existing record that is
not expired and not yet at the soft threshold, it runs `isAllowed` with
the default limits (8, 180000) and thereby increments the stored count as
a side effect, while reporting the pre-call count and `isBlocked = false`;
iterating `getStatus` from a one-attempt record reaches a blocked status
by the third call without any `isAllowed` use by the client. -/
theorem C9_getStatus_mutates (keyAttempts : RateLimitRecord) (now : Nat)
    (h1 : 1 ≤ keyAttempts.count) (h2 : keyAttempts.count < 3)
    (h3 : now ≤ keyAttempts.resetTime) :
    (RateLimiter.getStatus now (some keyAttempts)).2
        = some { keyAttempts with count := keyAttempts.count + 1 } ∧
      (RateLimiter.getStatus now (some keyAttempts)).1.attempts
        = keyAttempts.count ∧
      (RateLimiter.getStatus now (some keyAttempts)).1.isBlocked = false ∧
      (RateLimiter.getStatus 0 ((RateLimiter.getStatus 0
        ((RateLimiter.getStatus 0 (some ⟨1, 180000, 0⟩)).2)).2)).1.isBlocked
        = true := by
  have hlt : ¬ (keyAttempts.resetTime < now) := by omega
  have h0 : ¬ (keyAttempts.count = 0) := by omega
  have hsoft : ¬ (3 ≤ keyAttempts.count ∧ keyAttempts.count < 8 ∧
      now - keyAttempts.firstAttempt < 30000) := by omega
  have hmax : ¬ (8 ≤ keyAttempts.count) := by omega
  refine ⟨?_, ?_, ?_, by decide⟩ <;>
    simp [RateLimiter.getStatus, RateLimiter.isAllowed, hlt, h0, hsoft, hmax]

/-- C9, witness at the record `{count 1, resetTime 180000, firstAttempt 0}`
queried at time 0. -/
theorem C9_getStatus_mutates_witness :
    (RateLimiter.getStatus 0 (some ⟨1, 180000, 0⟩)).2
      = some ⟨2, 180000, 0⟩ :=
  (C9_getStatus_mutates ⟨1, 180000, 0⟩ 0 (by decide) (by decide) (by decide)).1

/-- The retry loop invokes the operation at most `remaining + 1` times. -/
lemma retryGo_count_le {α : Type} (fn : Nat → Except String α)
    (context : String) :
    ∀ remaining attempt, (retryGo fn context attempt remaining).2 ≤ remaining + 1 := by
  intro remaining
  induction remaining with
  | zero =>
    intro attempt
    cases h : fn attempt <;> simp [retryGo, h]
  | succ r ih =>
    intro attempt
    cases h : fn attempt with
    | ok v => simp [retryGo, h]
    | error e =>
      simp only [retryGo, h]
      exact Nat.succ_le_succ (ih (attempt + 1))

/-- The retry loop either returns some attempt's successful result or the
wrapped error built from a last failure message. -/
lemma retryGo_result {α : Type} (fn : Nat → Except String α)
    (context : String) :
    ∀ remaining attempt,
      (∃ k v, fn k = Except.ok v ∧
          (retryGo fn context attempt remaining).1 = Except.ok v) ∨
        (∃ m, (retryGo fn context attempt remaining).1
          = Except.error (retryFailMessage context m)) := by
  intro remaining
  induction remaining with
  | zero =>
    intro attempt
    cases h : fn attempt with
    | ok v => exact Or.inl ⟨attempt, v, h, by simp [retryGo, h]⟩
    | error e => exact Or.inr ⟨e, by simp [retryGo, h]⟩
  | succ r ih =>
    intro attempt
    cases h : fn attempt with
    | ok v => exact Or.inl ⟨attempt, v, h, by simp [retryGo, h]⟩
    | error e =>
      rcases ih (attempt + 1) with ⟨k, v, hk, hres⟩ | ⟨m, hres⟩
      · exact Or.inl ⟨k, v, hk, by simp [retryGo, h, hres]⟩
      · exact Or.inr ⟨m, by simp [retryGo, h, hres]⟩

/-- With an always-failing operation the retry loop uses every permitted
attempt and throws the wrapped error with that operation's message. -/
lemma retryGo_allfail {α : Type} (e context : String) :
    ∀ remaining attempt,
      retryGo (fun _ => (Except.error e : Except String α)) context attempt remaining
        = (Except.error (retryFailMessage context e), remaining + 1) := by
  intro remaining
  induction remaining with
  | zero => intro attempt; simp [retryGo]
  | succ r ih => intro attempt; simp [retryGo, ih (attempt + 1)]

/-- C3.  With the device online and both documents present,
`syncPendingData` leaves both sides equal to the document whose
`lastUpdated` timestamp is strictly greater (a missing field counts as 0,
as in `new Date(lastUpdated || 0)`); when the timestamps are equal neither
side is written. -/
theorem C3_sync_last_write_wins (localDoc remoteDoc : PreferencesData) :
    syncPendingData true ⟨some localDoc, some remoteDoc⟩
      = (true,
          if syncTimestamp (some remoteDoc) < syncTimestamp (some localDoc) then
            ⟨some localDoc, some localDoc⟩
          else if syncTimestamp (some localDoc) < syncTimestamp (some remoteDoc) then
            ⟨some remoteDoc, some remoteDoc⟩
          else
            ⟨some localDoc, some remoteDoc⟩) := by
  by_cases h1 : syncTimestamp (some remoteDoc) < syncTimestamp (some localDoc)
  · simp [syncPendingData, h1]
  · by_cases h2 : syncTimestamp (some localDoc) < syncTimestamp (some remoteDoc)
    · simp [syncPendingData, h1, h2]
    · simp [syncPendingData, h1, h2]

/-- C4.  `retryWithRenderOptimization` invokes the operation at most
`MAX_RETRIES = 3` times and always either returns one attempt's result or
throws the wrapped after-3-attempts error; with an operation that always
throws, the operation is invoked exactly 3 times and the wrapped error
carrying the last message is thrown. -/
theorem C4_retry_terminates {α : Type} (fn : Nat → Except String α)
    (context e : String) :
    (retryWithRenderOptimization fn context).2 ≤ 3 ∧
      ((∃ k v, fn k = Except.ok v ∧
          (retryWithRenderOptimization fn context).1 = Except.ok v) ∨
        (∃ m, (retryWithRenderOptimization fn context).1
          = Except.error (retryFailMessage context m))) ∧
      (retryWithRenderOptimization (fun _ => (Except.error e : Except String α))
          context).2 = 3 ∧
      (retryWithRenderOptimization (fun _ => (Except.error e : Except String α))
          context).1 = Except.error (retryFailMessage context e) := by
  refine ⟨retryGo_count_le fn context 2 1, ?_, ?_, ?_⟩
  · exact retryGo_result fn context 2 1
  · rw [retryWithRenderOptimization, show RENDER_CONFIG.MAX_RETRIES - 1 = 2 from rfl,
      retryGo_allfail e context 2 1]
  · rw [retryWithRenderOptimization, show RENDER_CONFIG.MAX_RETRIES - 1 = 2 from rfl,
      retryGo_allfail e context 2 1]

/-- C6.  Offline with no cached full catalog, `getAllExercises()` throws
"Sin conexión y no hay ejercicios guardados localmente" without any
network call; offline with a within-TTL cached copy it returns the cached
array, again without any network call (and without a background
refresh). -/
theorem C6_getAllExercises_offline (cached : CacheEntry (List Exercise))
    (now : Nat) (fetch : Except String (List Exercise))
    (fetchById : Except String Exercise)
    (h : now - cached.timestamp ≤ 3600000) :
    getAllExercises ⟨false, now, none, none, fetch, fetchById⟩
        = ⟨Except.error "Sin conexión y no hay ejercicios guardados localmente",
            false, false⟩ ∧
      getAllExercises ⟨false, now, some cached, none, fetch, fetchById⟩
        = ⟨Except.ok cached.data, false, false⟩ := by
  constructor
  · rfl
  · simp [getAllExercises, getFromCache, Nat.not_lt.mpr h]

/-- C6, witness: scenario A at time 600000 with an empty store, and
scenario B with a catalog cached 10 minutes earlier (TTL 1 h). -/
theorem C6_getAllExercises_offline_witness :
    getAllExercises ⟨false, 600000, some ⟨[], 0⟩, none,
        Except.error "net", Except.error "net"⟩
      = ⟨Except.ok [], false, false⟩ :=
  (C6_getAllExercises_offline ⟨[], 0⟩ 600000 (Except.error "net")
    (Except.error "net") (by decide)).2

/-- A `markFailure` on a detector that already counts at least one
consecutive failure flags the service asleep. -/
lemma markFailure_asleep_of_second (m : String) (t : ServiceStatusDetector)
    (h2 : 2 ≤ t.consecutiveFailures + 1) :
    (ServiceStatusDetector.markFailure m t).isServiceAsleep = true := by
  simp only [ServiceStatusDetector.markFailure]
  rw [if_pos (Or.inr h2)]

/-- C7.  After 2 consecutive `markFailure` calls (whatever the error
messages), `shouldUseWakeUpTimeout()` is true; a single subsequent
`markSuccess` resets it so that `shouldUseWakeUpTimeout()` queried at that
moment is false; and one `markFailure` with a recognized sleep-signature
message already sets the asleep flag. -/
theorem C7_wake_detector (s : ServiceStatusDetector) (m1 m2 sleepMsg : String)
    (now : Nat) (h : ServiceStatusDetector.isSleepSignature sleepMsg = true) :
    ServiceStatusDetector.shouldUseWakeUpTimeout now
        (ServiceStatusDetector.markFailure m2
          (ServiceStatusDetector.markFailure m1 s)) = true ∧
      ServiceStatusDetector.shouldUseWakeUpTimeout now
        (ServiceStatusDetector.markSuccess now
          (ServiceStatusDetector.markFailure m2
            (ServiceStatusDetector.markFailure m1 s))) = false ∧
      (ServiceStatusDetector.markFailure sleepMsg s).isServiceAsleep = true := by
  have hcf : (ServiceStatusDetector.markFailure m1 s).consecutiveFailures
      = s.consecutiveFailures + 1 := by
    simp only [ServiceStatusDetector.markFailure]
    split <;> rfl
  have hasleep : (ServiceStatusDetector.markFailure m2
      (ServiceStatusDetector.markFailure m1 s)).isServiceAsleep = true :=
    markFailure_asleep_of_second m2 _ (by omega)
  refine ⟨?_, ?_, ?_⟩
  · simp [ServiceStatusDetector.shouldUseWakeUpTimeout, hasleep]
  · simp [ServiceStatusDetector.markSuccess, ServiceStatusDetector.shouldUseWakeUpTimeout]
  · simp only [ServiceStatusDetector.markFailure]
    rw [if_pos (Or.inl h)]

/-- C7, witness: two ordinary failures from the initial state, then a
success at time 7; the sleep-signature message is "TIMEOUT". -/
theorem C7_wake_detector_witness :
    ServiceStatusDetector.shouldUseWakeUpTimeout 7
        (ServiceStatusDetector.markFailure "b"
          (ServiceStatusDetector.markFailure "a" ⟨false, 0, 0⟩)) = true ∧
      (ServiceStatusDetector.markFailure "TIMEOUT"
        ⟨false, 0, 0⟩).isServiceAsleep = true :=
  ⟨(C7_wake_detector ⟨false, 0, 0⟩ "a" "b" "TIMEOUT" 7 (by decide)).1,
    (C7_wake_detector ⟨false, 0, 0⟩ "a" "b" "TIMEOUT" 7 (by decide)).2.2⟩

/-- C5, counterexample.  With the device online and a within-TTL cached
copy under the per-muscle key, `getExercisesByMuscle` returns the cached
value but starts no background refresh (and makes no network call),
contradicting the claim that every query shape kicks off a background
refresh when online. -/
theorem C5_byMuscle_no_refresh_counterexample :
    (getExercisesByMuscle ⟨true, 0, none,
          some ⟨[⟨1, "Press banca", "Pecho", "Barra", "Intermedio"⟩], 0⟩,
          Except.error "net", Except.error "net"⟩).result
        = Except.ok [⟨1, "Press banca", "Pecho", "Barra", "Intermedio"⟩] ∧
      (getExercisesByMuscle ⟨true, 0, none,
          some ⟨[⟨1, "Press banca", "Pecho", "Barra", "Intermedio"⟩], 0⟩,
          Except.error "net", Except.error "net"⟩).backgroundRefreshStarted
        = false ∧
      (getExercisesByMuscle ⟨true, 0, none,
          some ⟨[⟨1, "Press banca", "Pecho", "Barra", "Intermedio"⟩], 0⟩,
          Except.error "net", Except.error "net"⟩).networkCalled = false :=
  ⟨rfl, rfl, rfl⟩

/-- C5, amended.  Every query shape with a within-TTL cached copy returns
that cached value immediately without awaiting a network call, but only
`getAllExercises` implements stale-while-revalidate: it kicks off the
best-effort background refresh exactly when the device is online — a
refresh that overwrites the cache entry on success and leaves it
untouched on failure — while `byMuscle`, `byEquipment`, `search`, and a
`byId` hit in the cached catalog never start a background refresh. -/
theorem C5_stale_while_revalidate (online : Bool) (now id : Nat)
    (cAll cKey cSearch : CacheEntry (List Exercise)) (ex : Exercise)
    (fetch : Except String (List Exercise))
    (fetchById : Except String Exercise) (searchTerm : String)
    (st : Option (CacheEntry (List Exercise)))
    (hAll : now - cAll.timestamp ≤ 3600000)
    (hKey : now - cKey.timestamp ≤ 3600000)
    (hSearch : now - cSearch.timestamp ≤ 1800000)
    (hFind : cAll.data.find? (fun x => x.id = id) = some ex) :
    getAllExercises ⟨online, now, some cAll, some cKey, fetch, fetchById⟩
        = ⟨Except.ok cAll.data, false, online⟩ ∧
      getExercisesByMuscle ⟨online, now, some cAll, some cKey, fetch, fetchById⟩
        = ⟨Except.ok cKey.data, false, false⟩ ∧
      getExercisesByEquipment ⟨online, now, some cAll, some cKey, fetch, fetchById⟩
        = ⟨Except.ok cKey.data, false, false⟩ ∧
      searchExercises searchTerm ⟨online, now, some cAll, some cSearch, fetch, fetchById⟩
        = ⟨Except.ok cSearch.data, false, false⟩ ∧
      getExerciseById id ⟨online, now, some cAll, some cKey, fetch, fetchById⟩
        = ⟨Except.ok ex, false, false⟩ ∧
      (∀ fresh : List Exercise, updateCacheInBackground now (Except.ok fresh) st
        = some (saveToCache now fresh)) ∧
      (∀ e : String, updateCacheInBackground now (Except.error e) st = st) := by
  have hcAll : (getFromCache now 3600000 (some cAll)).1 = some cAll.data := by
    simp [getFromCache, Nat.not_lt.mpr hAll]
  have hcKey : (getFromCache now 3600000 (some cKey)).1 = some cKey.data := by
    simp [getFromCache, Nat.not_lt.mpr hKey]
  have hcSearch : (getFromCache now 1800000 (some cSearch)).1 = some cSearch.data := by
    simp [getFromCache, Nat.not_lt.mpr hSearch]
  refine ⟨?_, ?_, ?_, ?_, ?_, fun fresh => rfl, fun e => rfl⟩
  · cases online <;> simp [getAllExercises, hcAll]
  · simp [getExercisesByMuscle, hcKey]
  · simp [getExercisesByEquipment, hcKey]
  · simp [searchExercises, hcSearch]
  · simp [getExerciseById, hcAll, hFind]

/-- C5, witness: online device, time 600000, a one-exercise catalog cached
at time 0 under both the catalog and the per-query keys. -/
theorem C5_stale_while_revalidate_witness :
    getAllExercises ⟨true, 600000, some ⟨[⟨1, "a", "b", "c", "d"⟩], 0⟩,
        some ⟨[], 0⟩, Except.error "net", Except.error "net"⟩
      = ⟨Except.ok [⟨1, "a", "b", "c", "d"⟩], false, true⟩ :=
  (C5_stale_while_revalidate true 600000 1 ⟨[⟨1, "a", "b", "c", "d"⟩], 0⟩
    ⟨[], 0⟩ ⟨[], 0⟩ ⟨1, "a", "b", "c", "d"⟩ (Except.error "net")
    (Except.error "net") "q" none (by decide) (by decide) (by decide)
    (by decide)).1

/-- Every run of `migrateUserRoutines` leaves the per-user completion flag
set. -/
lemma migrate_sets_flag (mkId : String → String) (now : Nat)
    (st : MigrationState) :
    (migrateUserRoutines mkId now st).migrationCompleted = true := by
  cases h : st.migrationCompleted
  · cases hOld : st.oldRoutines with
    | none => simp [migrateUserRoutines, h, hOld]
    | some old =>
      simp only [migrateUserRoutines, h, hOld, Bool.false_eq_true, if_false]
      split <;> rfl
  · simp [migrateUserRoutines, h]

/-- Filtering a routine list by membership of the name in its own name
list keeps every record. -/
lemma filter_self_names (l : List Routine) :
    l.filter (fun r => (l.map Routine.name).contains r.name) = l :=
  List.filter_eq_self.mpr fun _r hr =>
    List.elem_eq_true_of_mem (List.mem_map_of_mem Routine.name hr)

/-- Re-keyed legacy routines all carry names absent from the user's
namespace, so filtering them by already-present names leaves nothing. -/
lemma toMigrate_filter_nil (mkId : String → String) (now : Nat)
    (old : List Routine) (existingNames : List String) :
    (((old.filter fun routine => !(existingNames.contains routine.name)).map
        fun routine =>
          { routine with
            id := mkId routine.id
            migratedAt := some now
            originalId := some routine.id }).filter
      fun r => existingNames.contains r.name) = [] := by
  rw [List.filter_eq_nil_iff]
  intro a ha
  rcases List.mem_map.mp ha with ⟨b, hb, rfl⟩
  have hbn : (!(existingNames.contains b.name)) = true := (List.mem_filter.mp hb).2
  simpa using hbn

/-- C8.  Running `migrateUserRoutines` twice produces exactly the state of
running it once (the completion flag set by the first run makes the second
a no-op), and legacy records whose name already exists in the user's
namespace are never duplicated: restricting the post-migration routine
list to already-present names gives back precisely the original list. -/
theorem C8_migration_idempotent (mkId mkId2 : String → String)
    (now now2 : Nat) (st : MigrationState) :
    migrateUserRoutines mkId2 now2 (migrateUserRoutines mkId now st)
        = migrateUserRoutines mkId now st ∧
      ((migrateUserRoutines mkId now st).userRoutines.getD []).filter
          (fun r => ((st.userRoutines.getD []).map Routine.name).contains r.name)
        = st.userRoutines.getD [] := by
  constructor
  · have hflag := migrate_sets_flag mkId now st
    generalize migrateUserRoutines mkId now st = X at hflag ⊢
    simp [migrateUserRoutines, hflag]
  · cases h : st.migrationCompleted
    · cases hOld : st.oldRoutines with
      | none =>
        have hmig : migrateUserRoutines mkId now st
            = { st with migrationCompleted := true } := by
          simp [migrateUserRoutines, h, hOld]
        rw [hmig]
        exact filter_self_names _
      | some old =>
        simp only [migrateUserRoutines, h, hOld, Bool.false_eq_true, if_false]
        split
        · simp only [Option.getD_some, List.filter_append, filter_self_names,
            toMigrate_filter_nil, List.append_nil]
        · exact filter_self_names _
    · have hmig : migrateUserRoutines mkId now st = st := by
        simp [migrateUserRoutines, h]
      rw [hmig]
      exact filter_self_names _

/-- C10.  Every `saveUserPreferences` call overwrites `completedAt` with
the current time in addition to stamping `lastUpdated`, and
`updateUserPreferences` saves through it, so the original quiz-completion
timestamp is not preserved across saves. -/
theorem C10_completedAt_restamped (now : Nat) (userId : String)
    (preferences : PreferencesData) (updates : PreferencesUpdate) :
    (saveUserPreferences now userId preferences).completedAt = some now ∧
      (saveUserPreferences now userId preferences).lastUpdated = some now ∧
      (updateUserPreferences now userId preferences updates).completedAt
        = some now ∧
      (updateUserPreferences now userId preferences updates).lastUpdated
        = some now :=
  ⟨rfl, rfl, rfl, rfl⟩

end Gainz
